import Mathlib

/-!
Shallow embedding of the StatefulTeleBot core (package `stb`): the
per-conversation finite-state machine (`Machine`, `SendEvent`,
`getNextState`) and the update classifier/dispatcher
(`State.processUpdate`, `State.handle`, `State.handleMedia`).

Go maps are embedded as association lists (`List (κ × ν)` with
`List.lookup`); a `nil` Go map or slice is `Option.none`; Go's
multiple-return `(value, error)` becomes `Option`/an explicit outcome
type.  Handler values, stored in Go as `interface{}` and type-asserted
at call time, are embedded as an opaque registration: the handler table
keeps only its keys, and an invocation is recorded as an `Invocation`
value carrying the key and the payload the handler receives.
-/

/-- Go `type StateType string` (state.go line 8). -/
abbrev StateType := String

/-- Go `type EventType string` (not shown in the dispatcher file; used by the machine). -/
abbrev EventType := String

/-- Go `const Default StateType = "Default"` (state.go line 10). -/
def Default : StateType := "Default"

/-- Telegram user; only the fields the core reads (`ID`, `Username`). -/
structure User where
  ID : Int
  Username : String
  deriving DecidableEq

/-- Telegram chat; only `ID` is read (by the migration branch). -/
structure Chat where
  ID : Int
  deriving DecidableEq

/-- Telegram message.  Sub-payloads whose contents the dispatcher never
inspects (it only tests them against `nil`) are embedded as
`Option Unit`; `PinnedMessage` is among them because the dispatcher only
checks its presence.  Zero values of the Go struct are `none`, `""`,
`false`, `0`. -/
structure Message where
  Text : String := ""
  Payload : String := ""
  InlineID : String := ""
  PinnedMessage : Option Unit := none
  Photo : Option Unit := none
  Voice : Option Unit := none
  Audio : Option Unit := none
  Animation : Option Unit := none
  Document : Option Unit := none
  Sticker : Option Unit := none
  Video : Option Unit := none
  VideoNote : Option Unit := none
  Contact : Option Unit := none
  Location : Option Unit := none
  Venue : Option Unit := none
  Dice : Option Unit := none
  Invoice : Option Unit := none
  Payment : Option Unit := none
  UserJoined : Option User := none
  UsersJoined : Option (List User) := none
  UserLeft : Option User := none
  NewGroupTitle : String := ""
  NewGroupPhoto : Option Unit := none
  GroupCreated : Bool := false
  SuperGroupCreated : Bool := false
  GroupPhotoDeleted : Bool := false
  MigrateTo : Int := 0
  Chat : Chat := { ID := 0 }
  VoiceChatStarted : Option Unit := none
  VoiceChatEnded : Option Unit := none
  VoiceChatParticipantsInvited : Option Unit := none
  ProximityAlert : Option Unit := none
  AutoDeleteTimer : Option Unit := none
  VoiceChatSchedule : Option Unit := none
  deriving DecidableEq

/-- Telegram callback query: the fields the dispatcher reads/writes. -/
structure Callback where
  Data : String := ""
  MessageID : String := ""
  Message : Option Message := none
  deriving DecidableEq

/-- Inbound update: a tagged-union-like record with at most one populated
branch in well-formed traffic (the code nevertheless checks the branches
in a fixed order).  Branches whose payloads the dispatcher never inspects
are `Option Unit`.  (The `Message` field is declared after the other
message-typed fields only because its name shadows the `Message` type for
later field declarations; field order carries no meaning.) -/
structure Update where
  EditedMessage : Option Message := none
  ChannelPost : Option Message := none
  EditedChannelPost : Option Message := none
  Message : Option Message := none
  Callback : Option Callback := none
  Query : Option Unit := none
  ChosenInlineResult : Option Unit := none
  ShippingQuery : Option Unit := none
  PreCheckoutQuery : Option Unit := none
  Poll : Option Unit := none
  PollAnswer : Option Unit := none
  MyChatMember : Option Unit := none
  ChatMember : Option Unit := none
  deriving DecidableEq

/-- One state's configuration (state.go lines 12-22): bot identity `Me`,
the event-transition table `Events` (`nil` map ↦ `none`), the handler
table (embedded as its key set, handler values being opaque), and the
optional entry action.  The `verbose`/`reporter` debug fields are not
modelled. -/
structure State where
  Me : User
  typ : StateType
  handlers : List String := []
  Events : Option (List (EventType × StateType)) := none
  action : Option Unit := none
  synchronous : Bool := false
  deriving DecidableEq

/-- The state machine (part_000 lines 15-27): current state, owning user,
state table and global event table.  The untyped context payload and the
mutex are not modelled (the embedding of `SendEvent` is a pure function,
which is what the mutex guarantees per machine). -/
structure Machine where
  current : StateType
  who : Option User := none
  states : List (StateType × State) := []
  globalEvents : Option (List (EventType × StateType)) := none
  deriving DecidableEq

/-- First block of `Machine.getNextState` (part_000 lines 32-38): the
state-local lookup.  `none` when the current state is unregistered, its
`Events` map is `nil`, or the event is absent. -/
def Machine.localNext (m : Machine) (event : EventType) : Option StateType :=
  match m.states.lookup m.current with
  | some state =>
    match state.Events with
    | some events => events.lookup event
    | none => none
  | none => none

/-- Second block of `Machine.getNextState` (part_000 lines 40-44): the
global-table lookup, guarded by `m.globalEvents != nil`. -/
def Machine.globalNext (m : Machine) (event : EventType) : Option StateType :=
  match m.globalEvents with
  | some g => g.lookup event
  | none => none

/-- `Machine.getNextState` (part_000 lines 31-47).  Go returns
`(Default, ErrEventRejected)` on failure; the error case is embedded as
`none`. -/
def Machine.getNextState (m : Machine) (event : EventType) : Option StateType :=
  match m.localNext event with
  | some next => some next
  | none => m.globalNext event

/-- Observable outcome of one `SendEvent` call.  `rejected` is the
`ErrEventRejected` return; `nilDerefPanic` is the runtime panic raised by
`state.action != nil` when `m.states[nextState]` yielded the nil pointer
(part_000: `state, ok := m.states[nextState]` with `ok == false` leaves
`state == nil`, the `// configuration error` branch is empty, and the
later field access dereferences nil). -/
inductive SendOutcome where
  | ok
  | rejected
  | nilDerefPanic
  deriving DecidableEq

/-- `Machine.SendEvent` (part_000 lines 50-77), returning the outcome and
the machine afterwards.  Note the order in the source: `m.current =
nextState` executes before `state.action` is read, so on the nil-pointer
panic the machine has already moved to `nextState`.  Running the entry
action itself (a call into opaque handler code) has no further effect on
the machine's fields and is not recorded. -/
def Machine.SendEvent (m : Machine) (event : EventType) : SendOutcome × Machine :=
  match m.getNextState event with
  | none => (SendOutcome.rejected, m)
  | some nextState =>
    match m.states.lookup nextState with
    | none => (SendOutcome.nilDerefPanic, { m with current := nextState })
    | some _ => (SendOutcome.ok, { m with current := nextState })

/-- `Machine.Current` (part_000 lines 91-93). -/
def Machine.Current (m : Machine) : StateType := m.current

/-- The control character used as the internal-filter prefix, Go `'\a'`
(state.go line 55).  The source tests the first byte; for this
single-byte character that is the same as testing the first character. -/
def bellChar : Char := '\x07'

/-- The internal-filter prefix as a string, used to build the
classification keys below. -/
def bellStr : String := "\x07"

/-- The callback escape prefix character, Go `'\f'` (state.go line 278). -/
def escapeChar : Char := '\x0C'

/-- The callback escape prefix as a string, Go `"\f"` (state.go line 283). -/
def escapeStr : String := "\x0C"

/-- First-byte test `t[0]` of the source, embedded as the first character
(`NUL` for the empty string; every use is guarded by a non-emptiness
check in the source). -/
def firstChar (t : String) : Char := t.toList.headD (Char.ofNat 0)

/-- Case-insensitive string comparison: the source calls the Go standard
library's `strings.EqualFold`, embedded as per-character simple case
folding (faithful for the ASCII bot names involved). -/
def eqFold (a b : String) : Bool :=
  a.toList.map Char.toLower == b.toList.map Char.toLower

/-- Modelled from the spec: ASCII word character (letter, digit or
underscore), the character class of command and bot names in the command
pattern (the regular expression `cmdRx` is not among the shown sources). -/
def isWordChar (c : Char) : Bool := c.isAlphanum || c == '_'

/-- Modelled from the spec: the command pattern `/name@botname payload`
(the regular expression `cmdRx` is not among the shown sources).  Returns
`(command, botName, payload)`: a leading slash followed by a non-empty
word-character name, an optional at-sign-delimited non-empty bot name,
then either the end of the text (empty payload) or a space followed by
the rest of the text as payload.  Anything else is not a command and the
text degenerates to plain-text classification. -/
def parseCommand (text : String) : Option (String × String × String) :=
  match text.toList with
  | '/' :: rest =>
    let name := rest.takeWhile isWordChar
    let afterName := rest.dropWhile isWordChar
    if name.isEmpty then none
    else
      let command := String.mk ('/' :: name)
      match afterName with
      | [] => some (command, "", "")
      | '@' :: rest2 =>
        let bot := rest2.takeWhile isWordChar
        let afterBot := rest2.dropWhile isWordChar
        if bot.isEmpty then none
        else
          match afterBot with
          | [] => some (command, String.mk bot, "")
          | ' ' :: payload => some (command, String.mk bot, String.mk payload)
          | _ => none
      | ' ' :: payload => some (command, "", String.mk payload)
      | _ => none
  | _ => none

/-- Modelled from the spec: the fixed two-part callback-data pattern (the
regular expression `cbackRx` is not among the shown sources): after the
escape prefix, a non-empty identifier up to the first bar, then the rest
as the trailing payload (empty when no bar follows); e.g. escape prefix
then `yesBtn|ok` parses to identifier `yesBtn` and payload `ok`. -/
def parseCallbackData (data : String) : Option (String × String) :=
  match data.toList with
  | c :: rest =>
    if c == escapeChar then
      let ident := rest.takeWhile (fun ch => ch != '|')
      let after := rest.dropWhile (fun ch => ch != '|')
      if ident.isEmpty then none
      else
        match after with
        | [] => some (String.mk ident, "")
        | _ :: payload => some (String.mk ident, String.mk payload)
    else none
  | [] => none

/-- Modelled from the spec: membership of a user in a joined-users list
is by user id (the helper `isUserInList` is not among the shown
sources; the spec says the bot-added check holds when the bot's own id is
present in a joined-users list). -/
def isUserInList (u : User) (list : List User) : Bool :=
  list.any (fun x => x.ID == u.ID)

/-- Modelled from the spec: the internal classification keys (their
string values are not among the shown sources).  Each begins with the
control character reserved for internal filtering, so ordinary message
text — rejected outright when it starts with that character — can never
collide with a key at the literal 1:1 matching step. -/
def onKey (name : String) : String := bellStr ++ name

/-- Modelled from the spec: classification key. -/
def OnPinned : String := onKey "pinned_message"

/-- Modelled from the spec: classification key. -/
def OnCommand : String := onKey "command"

/-- Modelled from the spec: classification key. -/
def OnText : String := onKey "text"

/-- Modelled from the spec: classification key. -/
def OnPhoto : String := onKey "photo"

/-- Modelled from the spec: classification key. -/
def OnVoice : String := onKey "voice"

/-- Modelled from the spec: classification key. -/
def OnAudio : String := onKey "audio"

/-- Modelled from the spec: classification key. -/
def OnAnimation : String := onKey "animation"

/-- Modelled from the spec: classification key. -/
def OnDocument : String := onKey "document"

/-- Modelled from the spec: classification key. -/
def OnSticker : String := onKey "sticker"

/-- Modelled from the spec: classification key. -/
def OnVideo : String := onKey "video"

/-- Modelled from the spec: classification key. -/
def OnVideoNote : String := onKey "video_note"

/-- Modelled from the spec: classification key. -/
def OnContact : String := onKey "contact"

/-- Modelled from the spec: classification key. -/
def OnLocation : String := onKey "location"

/-- Modelled from the spec: classification key. -/
def OnVenue : String := onKey "venue"

/-- Modelled from the spec: classification key. -/
def OnDice : String := onKey "dice"

/-- Modelled from the spec: classification key. -/
def OnInvoice : String := onKey "invoice"

/-- Modelled from the spec: classification key. -/
def OnPayment : String := onKey "payment"

/-- Modelled from the spec: classification key. -/
def OnAddedToGroup : String := onKey "added_to_group"

/-- Modelled from the spec: classification key. -/
def OnUserJoined : String := onKey "user_joined"

/-- Modelled from the spec: classification key. -/
def OnUserLeft : String := onKey "user_left"

/-- Modelled from the spec: classification key. -/
def OnNewGroupTitle : String := onKey "new_chat_title"

/-- Modelled from the spec: classification key. -/
def OnNewGroupPhoto : String := onKey "new_chat_photo"

/-- Modelled from the spec: classification key. -/
def OnGroupPhotoDeleted : String := onKey "chat_photo_del"

/-- Modelled from the spec: classification key. -/
def OnMigration : String := onKey "migration"

/-- Modelled from the spec: classification key. -/
def OnVoiceChatStarted : String := onKey "voice_chat_started"

/-- Modelled from the spec: classification key. -/
def OnVoiceChatEnded : String := onKey "voice_chat_ended"

/-- Modelled from the spec: classification key. -/
def OnVoiceChatParticipantsInvited : String := onKey "voice_chat_participants_invited"

/-- Modelled from the spec: classification key. -/
def OnProximityAlert : String := onKey "proximity_alert"

/-- Modelled from the spec: classification key. -/
def OnAutoDeleteTimer : String := onKey "auto_delete_timer"

/-- Modelled from the spec: classification key. -/
def OnVoiceChatScheduled : String := onKey "voice_chat_scheduled"

/-- Modelled from the spec: classification key. -/
def OnEdited : String := onKey "edited"

/-- Modelled from the spec: classification key. -/
def OnChannelPost : String := onKey "channel_post"

/-- Modelled from the spec: classification key. -/
def OnEditedChannelPost : String := onKey "edited_channel_post"

/-- Modelled from the spec: classification key. -/
def OnCallback : String := onKey "callback"

/-- Modelled from the spec: classification key. -/
def OnQuery : String := onKey "query"

/-- Modelled from the spec: classification key. -/
def OnChosenInlineResult : String := onKey "chosen_inline_result"

/-- Modelled from the spec: classification key. -/
def OnShipping : String := onKey "shipping_query"

/-- Modelled from the spec: classification key. -/
def OnCheckout : String := onKey "pre_checkout_query"

/-- Modelled from the spec: classification key. -/
def OnPoll : String := onKey "poll"

/-- Modelled from the spec: classification key. -/
def OnPollAnswer : String := onKey "poll_answer"

/-- Modelled from the spec: classification key. -/
def OnMyChatMember : String := onKey "my_chat_member"

/-- Modelled from the spec: classification key. -/
def OnChatMember : String := onKey "chat_member"

/-- A recorded handler invocation: the key the handler was found under
and the payload it receives.  `onMessage` covers every handler receiving
the message pointer (including the inline voice-chat, proximity-alert and
auto-delete lookups); `onCallback` covers callback handlers;
`onMigration` the two-int migration handler; `onOther` the generic
non-message branches whose payloads the dispatcher passes through
opaquely. -/
inductive Invocation where
  | onMessage (key : String) (msg : Message)
  | onCallback (key : String) (cb : Callback)
  | onMigration (chatID migrateTo : Int)
  | onOther (key : String)
  deriving DecidableEq

/-- `State.handle` (state.go lines 437-450): look up the key in the
handler table; if present, run the handler (recorded here as an
invocation) and report true; otherwise report false.  The runtime type
assertion on the stored handler value always succeeds in this embedding
because registered handlers are opaque and well-typed by construction;
in the source a mismatch panics at first invocation. -/
def State.handle (s : State) (key : String) (msg : Message) : Bool × List Invocation :=
  if s.handlers.contains key then (true, [Invocation.onMessage key msg])
  else (false, [])

/-- The media switch of `State.handleMedia` (state.go lines 453-477):
the first present media field, in source order, selects the key. -/
def mediaKey (msg : Message) : Option String :=
  if msg.Photo.isSome then some OnPhoto
  else if msg.Voice.isSome then some OnVoice
  else if msg.Audio.isSome then some OnAudio
  else if msg.Animation.isSome then some OnAnimation
  else if msg.Document.isSome then some OnDocument
  else if msg.Sticker.isSome then some OnSticker
  else if msg.Video.isSome then some OnVideo
  else if msg.VideoNote.isSome then some OnVideoNote
  else if msg.Contact.isSome then some OnContact
  else if msg.Location.isSome then some OnLocation
  else if msg.Venue.isSome then some OnVenue
  else if msg.Dice.isSome then some OnDice
  else none

/-- `State.handleMedia` (state.go lines 452-482): when a media field is
present the inner `s.handle` runs for its key but its boolean result is
discarded — the switch returns true regardless of whether a handler was
registered.  Only the default case (no media present) returns false. -/
def State.handleMedia (s : State) (msg : Message) : Bool × List Invocation :=
  match mediaKey msg with
  | some key => (true, (s.handle key msg).2)
  | none => (false, [])

/-- The joined-users fan-out loop (state.go lines 108-119): one
`s.handle OnUserJoined` call per joined user, each on a shallow per-user
copy of the message (`mm := *msh; mm.UserJoined = &msh.UsersJoined[index]`),
with the boolean results accumulated by OR. -/
def State.fanOutJoined (s : State) (msh : Message) : List User → Bool × List Invocation
  | [] => (false, [])
  | u :: rest =>
    let r := s.handle OnUserJoined { msh with UserJoined := some u }
    let r2 := s.fanOutJoined msh rest
    (r.1 || r2.1, r.2 ++ r2.2)

/-- The repeated inline pattern
`if handler, ok := s.handlers[K]; ok { run; return true }; return false`
used by the migration, voice-chat, proximity-alert and auto-delete
message branches and by every generic non-message branch.  The recorded
invocation is passed in because the payload shape differs per branch. -/
def State.genericSlot (s : State) (key : String) (inv : Invocation) : Bool × List Invocation :=
  if s.handlers.contains key then (true, [inv]) else (false, [])

/-- The inline-message rewrite at the top of the callback branch
(state.go lines 268-275): when the callback has data and a non-empty
inline message id, its `Message` is replaced by a fresh message holding
only `InlineID`. -/
def inlineRewrite (cb : Callback) : Callback :=
  if cb.Data ≠ "" ∧ cb.MessageID ≠ "" then
    { cb with Message := some { InlineID := cb.MessageID } }
  else cb

/-- The literal 1:1 / unrecognized-command / any-text ladder closing the
text block (state.go lines 74-84). -/
def State.afterCommand (s : State) (msh : Message) : Bool × List Invocation :=
  if (s.handle msh.Text msh).1 then s.handle msh.Text msh
  else if firstChar msh.Text = '/' then s.handle OnCommand msh
  else s.handle OnText msh

/-- Text-message classification (state.go lines 53-85); the caller
guarantees `msh.Text` is non-empty.  In order: the internal-filter
rejection, the command match — whose bot-name mismatch returns false
immediately — the payload write-back (`msh.Payload = match[0][5]`, a
mutation that persists into the fall-through ladder), the command-key
lookup, then the ladder. -/
def State.processText (s : State) (msh : Message) : Bool × List Invocation :=
  if firstChar msh.Text = bellChar then (false, [])
  else
    match parseCommand msh.Text with
    | some (command, botName, payload) =>
      if botName ≠ "" ∧ eqFold s.Me.Username botName = false then (false, [])
      else if (s.handle command { msh with Payload := payload }).1 then
        s.handle command { msh with Payload := payload }
      else s.afterCommand { msh with Payload := payload }
    | none => s.afterCommand msh

/-- Message branches after the text block (state.go lines 87-243).
Returns `none` when no branch matched, in which case control in the
source falls off the end of the `upd.Message != nil` block into the
non-message branches. -/
def State.processNonText (s : State) (msh : Message) : Option (Bool × List Invocation) :=
  if (s.handleMedia msh).1 then some (s.handleMedia msh)
  else if msh.Invoice.isSome then some (s.handle OnInvoice msh)
  else if msh.Payment.isSome then some (s.handle OnPayment msh)
  else
    -- `wasAdded` (state.go lines 101-102), inlined into its only use
    if msh.GroupCreated || msh.SuperGroupCreated ||
        ((match msh.UserJoined with | some u => u.ID == s.Me.ID | none => false)
         || (match msh.UsersJoined with | some l => isUserInList s.Me l | none => false)) then
      some (s.handle OnAddedToGroup msh)
    else
      match msh.UsersJoined with
      | some users => some (s.fanOutJoined msh users)
      | none =>
        if msh.UserJoined.isSome then some (s.handle OnUserJoined msh)
        else if msh.UserLeft.isSome then some (s.handle OnUserLeft msh)
        else if msh.NewGroupTitle ≠ "" then some (s.handle OnNewGroupTitle msh)
        else if msh.NewGroupPhoto.isSome then some (s.handle OnNewGroupPhoto msh)
        else if msh.GroupPhotoDeleted then some (s.handle OnGroupPhotoDeleted msh)
        else if msh.MigrateTo ≠ 0 then
          some (s.genericSlot OnMigration (Invocation.onMigration msh.Chat.ID msh.MigrateTo))
        else if msh.VoiceChatStarted.isSome then
          some (s.genericSlot OnVoiceChatStarted (Invocation.onMessage OnVoiceChatStarted msh))
        else if msh.VoiceChatEnded.isSome then
          some (s.genericSlot OnVoiceChatEnded (Invocation.onMessage OnVoiceChatEnded msh))
        else if msh.VoiceChatParticipantsInvited.isSome then
          some (s.genericSlot OnVoiceChatParticipantsInvited
            (Invocation.onMessage OnVoiceChatParticipantsInvited msh))
        else if msh.ProximityAlert.isSome then
          some (s.genericSlot OnProximityAlert (Invocation.onMessage OnProximityAlert msh))
        else if msh.AutoDeleteTimer.isSome then
          some (s.genericSlot OnAutoDeleteTimer (Invocation.onMessage OnAutoDeleteTimer msh))
        else if msh.VoiceChatSchedule.isSome then
          some (s.genericSlot OnVoiceChatScheduled (Invocation.onMessage OnVoiceChatScheduled msh))
        else none

/-- The callback branch (state.go lines 267-309): inline-message rewrite,
then — when the data is non-empty and starts with the escape prefix and
parses — the structured route under the escape-prefixed identifier key
with the data replaced by the trailing payload; when the structured
attempt does not fire, control falls through to the generic callback
slot, which sees the (rewritten) callback with its data untouched. -/
def State.callbackBranch (s : State) (cb0 : Callback) : Bool × List Invocation :=
  let cb := inlineRewrite cb0
  let structured : Option (Bool × List Invocation) :=
    if cb.Data ≠ "" ∧ firstChar cb.Data = escapeChar then
      match parseCallbackData cb.Data with
      | some (unique, payload) =>
        if s.handlers.contains (escapeStr ++ unique) then
          some (true, [Invocation.onCallback (escapeStr ++ unique) { cb with Data := payload }])
        else none
      | none => none
    else none
  match structured with
  | some r => r
  | none => s.genericSlot OnCallback (Invocation.onCallback OnCallback cb)

/-- Non-message branches (state.go lines 245-422), reached when the
update carries no message or the message matched no branch. -/
def State.processRest (s : State) (upd : Update) : Bool × List Invocation :=
  match upd.EditedMessage with
  | some em => s.handle OnEdited em
  | none =>
  match upd.ChannelPost with
  | some msg =>
    if msg.PinnedMessage.isSome then s.handle OnPinned msg
    else s.handle OnChannelPost msg
  | none =>
  match upd.EditedChannelPost with
  | some ecp => s.handle OnEditedChannelPost ecp
  | none =>
  match upd.Callback with
  | some cb0 => s.callbackBranch cb0
  | none =>
  match upd.Query with
  | some _ => s.genericSlot OnQuery (Invocation.onOther OnQuery)
  | none =>
  match upd.ChosenInlineResult with
  | some _ => s.genericSlot OnChosenInlineResult (Invocation.onOther OnChosenInlineResult)
  | none =>
  match upd.ShippingQuery with
  | some _ => s.genericSlot OnShipping (Invocation.onOther OnShipping)
  | none =>
  match upd.PreCheckoutQuery with
  | some _ => s.genericSlot OnCheckout (Invocation.onOther OnCheckout)
  | none =>
  match upd.Poll with
  | some _ => s.genericSlot OnPoll (Invocation.onOther OnPoll)
  | none =>
  match upd.PollAnswer with
  | some _ => s.genericSlot OnPollAnswer (Invocation.onOther OnPollAnswer)
  | none =>
  match upd.MyChatMember with
  | some _ => s.genericSlot OnMyChatMember (Invocation.onOther OnMyChatMember)
  | none =>
  match upd.ChatMember with
  | some _ => s.genericSlot OnChatMember (Invocation.onOther OnChatMember)
  | none => (false, [])

/-- `State.processUpdate` (state.go lines 43-423): the full classifier.
Returns the boolean the source returns, paired with the list of handler
invocations the call makes. -/
def State.processUpdate (s : State) (upd : Update) : Bool × List Invocation :=
  match upd.Message with
  | some msh =>
    if msh.PinnedMessage.isSome then s.handle OnPinned msh
    else if msh.Text ≠ "" then s.processText msh
    else
      match s.processNonText msh with
      | some r => r
      | none => s.processRest upd
  | none => s.processRest upd

/-! Concrete fixtures used by witnesses and counterexamples. -/

/-- A bot identity used by the concrete fixtures. -/
def botUser : User := { ID := 1, Username := "bot1" }

/-- Machine fixture: current state registered, one local transition
`"go" ↦ "Other"`, a registered `"Other"` state, one global transition. -/
def machineA : Machine :=
  { current := Default
    states :=
      [(Default, { Me := botUser, typ := Default, Events := some [("go", "Other")] }),
       ("Other", { Me := botUser, typ := "Other", Events := some [] })]
    globalEvents := some [("reset", Default)] }

/-- Machine fixture: a local transition `"go" ↦ "B"` whose target `"B"`
has no registered State. -/
def machineB : Machine :=
  { current := "A"
    states := [("A", { Me := botUser, typ := "A", Events := some [("go", "B")] })]
    globalEvents := none }

/-- Machine fixture: same shape as `machineB`, used by the unregistered-
target evaluation. -/
def machineC : Machine :=
  { current := "A"
    states := [("A", { Me := botUser, typ := "A", Events := some [("go", "B")] })]
    globalEvents := some [("x", "A")] }

/-- Machine fixture: both the current state's table and the global table
define `"go"`, with different targets. -/
def machineE : Machine :=
  { current := "A"
    states :=
      [("A", { Me := botUser, typ := "A", Events := some [("go", "LocalT")] }),
       ("LocalT", { Me := botUser, typ := "LocalT" }),
       ("GlobalT", { Me := botUser, typ := "GlobalT" })]
    globalEvents := some [("go", "GlobalT")] }

/-- Machine fixture: current state label unregistered; one global
transition `"reset" ↦ "Default"`. -/
def machineD : Machine :=
  { current := "Ghost"
    states := [(Default, { Me := botUser, typ := Default, Events := some [] })]
    globalEvents := some [("reset", Default)] }

/-- C1: for every machine and event present neither in the current
state's transition table nor in the global table, `SendEvent` returns the
`EventRejected` error and leaves the machine — in particular `Current` —
unchanged. -/
theorem sendEvent_rejected_when_unmatched (m : Machine) (e : EventType)
    (hl : m.localNext e = none) (hg : m.globalNext e = none) :
    m.SendEvent e = (SendOutcome.rejected, m) ∧
      ((m.SendEvent e).2).Current = m.Current := by
  have hget : m.getNextState e = none := by
    simp [Machine.getNextState, hl, hg]
  simp [Machine.SendEvent, hget]

/-- Witness for C1: on `machineA`, the event `"nope"` is in neither
table, is rejected, and the machine is unchanged. -/
theorem sendEvent_rejected_when_unmatched_witness :
    machineA.localNext "nope" = none ∧ machineA.globalNext "nope" = none ∧
      machineA.SendEvent "nope" = (SendOutcome.rejected, machineA) :=
  ⟨by decide, by decide,
    (sendEvent_rejected_when_unmatched machineA "nope" (by decide) (by decide)).1⟩

/-- C2 (amended): for every machine and event mapped by the current
state's transition table to a target `t` that has a registered State
object, `SendEvent` returns no error and `Current` equals `t` right after
the call. -/
theorem sendEvent_ok_on_local_transition (m : Machine) (e : EventType)
    (st tst : State) (evs : List (EventType × StateType)) (t : StateType)
    (hst : m.states.lookup m.current = some st) (hevs : st.Events = some evs)
    (ht : evs.lookup e = some t) (hreg : m.states.lookup t = some tst) :
    m.SendEvent e = (SendOutcome.ok, { m with current := t }) ∧
      ((m.SendEvent e).2).Current = t := by
  have hl : m.localNext e = some t := by
    simp [Machine.localNext, hst, hevs, ht]
  have hget : m.getNextState e = some t := by
    simp [Machine.getNextState, hl]
  simp [Machine.SendEvent, hget, hreg, Machine.Current]

/-- Witness for C2 (amended): on `machineA`, `"go"` maps to the
registered state `"Other"`; the call succeeds and lands there. -/
theorem sendEvent_ok_on_local_transition_witness :
    (machineA.states.lookup machineA.current).bind State.Events = some [("go", "Other")] ∧
      (machineA.states.lookup "Other").isSome = true ∧
      machineA.SendEvent "go" = (SendOutcome.ok, { machineA with current := "Other" }) :=
  ⟨by decide, by decide,
    (sendEvent_ok_on_local_transition machineA "go"
      { Me := botUser, typ := Default, Events := some [("go", "Other")] }
      { Me := botUser, typ := "Other", Events := some [] }
      [("go", "Other")] "Other" (by decide) (by decide) (by decide) (by decide)).1⟩

/-- Counterexample to C2 as stated: on `machineB` the event `"go"` is
mapped by the current state's table to `"B"`, yet `SendEvent` does not
return successfully (the unregistered target makes it panic on a nil
`*State` dereference). -/
theorem sendEvent_local_transition_not_always_ok :
    ((machineB.states.lookup machineB.current).bind State.Events).bind
        (fun evs => evs.lookup "go") = some "B" ∧
      (machineB.SendEvent "go").1 ≠ SendOutcome.ok := by decide

/-- C3: evaluation of `SendEvent` at a transition into an unregistered
target state.  The source sets `m.current = nextState` and then reads
`state.action` from the nil `*State`, so the call panics (after the
state change) instead of returning successfully with a no-op action as
the claim states. -/
theorem sendEvent_unregistered_target_panics :
    machineC.SendEvent "go" = (SendOutcome.nilDerefPanic, { machineC with current := "B" }) := by
  decide

/-- C6: the state-local transition table is consulted first, so when the
current state's table maps the event, that target is the resolved next
state — whatever the global table holds — and it is the state
transitioned to. -/
theorem local_table_wins (m : Machine) (e : EventType) (st : State)
    (evs : List (EventType × StateType)) (t : StateType)
    (hst : m.states.lookup m.current = some st) (hevs : st.Events = some evs)
    (ht : evs.lookup e = some t) :
    m.getNextState e = some t ∧ ((m.SendEvent e).2).Current = t := by
  have hl : m.localNext e = some t := by
    simp [Machine.localNext, hst, hevs, ht]
  have hget : m.getNextState e = some t := by
    simp [Machine.getNextState, hl]
  refine ⟨hget, ?_⟩
  cases h2 : m.states.lookup t <;>
    simp [Machine.SendEvent, hget, h2, Machine.Current]

/-- Witness for C6: on `machineE` both tables define `"go"`; the local
target `"LocalT"` wins over the global `"GlobalT"`. -/
theorem local_table_wins_witness :
    machineE.getNextState "go" = some "LocalT" ∧
      ((machineE.SendEvent "go").2).Current = "LocalT" :=
  local_table_wins machineE "go"
    { Me := botUser, typ := "A", Events := some [("go", "LocalT")] }
    [("go", "LocalT")] "LocalT" (by decide) (by decide) (by decide)

/-- C10: when the current state label has no registered State, or its
registered State has a nil transition table, resolution falls to the
global table alone, and `SendEvent` rejects the event exactly when the
global table lacks it. -/
theorem globalOnly_resolution (m : Machine) (e : EventType)
    (h : m.states.lookup m.current = none ∨
      ∃ st, m.states.lookup m.current = some st ∧ st.Events = none) :
    m.getNextState e = m.globalNext e ∧
      ((m.SendEvent e).1 = SendOutcome.rejected ↔ m.globalNext e = none) := by
  have hl : m.localNext e = none := by
    rcases h with h | ⟨st, h1, h2⟩
    · simp [Machine.localNext, h]
    · simp [Machine.localNext, h1, h2]
  have hget : m.getNextState e = m.globalNext e := by
    simp [Machine.getNextState, hl]
  refine ⟨hget, ?_⟩
  cases hg : m.globalNext e with
  | none => simp [Machine.SendEvent, hget, hg]
  | some t =>
    cases h2 : m.states.lookup t <;>
      simp [Machine.SendEvent, hget, hg, h2]

/-- Witness for C10: `machineD`'s current label `"Ghost"` is
unregistered; `"reset"` resolves through the global table (and a
globally absent event is rejected). -/
theorem globalOnly_resolution_witness :
    machineD.states.lookup machineD.current = none ∧
      machineD.getNextState "reset" = machineD.globalNext "reset" ∧
      machineD.globalNext "reset" = some Default ∧
      ((machineD.SendEvent "reset").1 = SendOutcome.rejected ↔
        machineD.globalNext "reset" = none) :=
  ⟨by decide,
    (globalOnly_resolution machineD "reset" (Or.inl (by decide))).1,
    by decide,
    (globalOnly_resolution machineD "reset" (Or.inl (by decide))).2⟩

/-! Dispatcher lemmas and claims. -/

/-- A successfully parsed command starts with the slash character. -/
theorem parseCommand_head (t command botName payload : String)
    (h : parseCommand t = some (command, botName, payload)) :
    firstChar t = '/' := by
  unfold parseCommand at h
  split at h
  · next heq =>
    unfold firstChar
    rw [heq]
    rfl
  · exact absurd h (by simp)

/-- A successfully parsed command has non-empty text. -/
theorem parseCommand_text_ne (t command botName payload : String)
    (h : parseCommand t = some (command, botName, payload)) :
    t ≠ "" := by
  intro ht
  rw [ht] at h
  rw [show parseCommand "" = none from rfl] at h
  exact Option.noConfusion h

/-- C9: a message whose non-empty text starts with the internal-filter
control character (and that carries no pinned-message sub-payload) is
rejected outright: no handler runs and classification returns false. -/
theorem bell_text_unhandled (s : State) (upd : Update) (msh : Message)
    (hm : upd.Message = some msh) (hp : msh.PinnedMessage = none)
    (ht : msh.Text ≠ "") (hbell : firstChar msh.Text = bellChar) :
    s.processUpdate upd = (false, []) := by
  simp [State.processUpdate, hm, hp, ht, State.processText, hbell]

/-- Fixture state: bot `bot1` with handlers for the generic command,
any-text and user-joined categories, plus a structured callback button. -/
def stateF : State :=
  { Me := botUser
    typ := Default
    handlers := [OnCommand, OnText, OnUserJoined, escapeStr ++ "yesBtn"] }

/-- Update fixture: a control-character-prefixed text message. -/
def updBell : Update := { Message := some { Text := "\x07spoof" } }

/-- Witness for C9: the filtered text is rejected with no invocation even
though text handlers are registered. -/
theorem bell_text_unhandled_witness :
    ("\x07spoof" ≠ "" ∧ firstChar "\x07spoof" = bellChar) ∧
      stateF.processUpdate updBell = (false, []) :=
  ⟨⟨by decide, by decide⟩,
    bell_text_unhandled stateF updBell { Text := "\x07spoof" } rfl rfl
      (by decide) (by decide)⟩

/-- C4 (amended): a message parsing as command syntax with an explicit
bot-name suffix that does not case-insensitively match the bot's own
username is not treated as a command match — and the classifier returns
false immediately, invoking no handler, rather than falling through to
the literal 1:1 / unrecognized-command / any-text steps. -/
theorem botname_mismatch_unhandled (s : State) (upd : Update) (msh : Message)
    (command botName payload : String)
    (hm : upd.Message = some msh) (hp : msh.PinnedMessage = none)
    (hparse : parseCommand msh.Text = some (command, botName, payload))
    (hbn : botName ≠ "") (hfold : eqFold s.Me.Username botName = false) :
    s.processUpdate upd = (false, []) := by
  have hhead := parseCommand_head _ _ _ _ hparse
  have hne := parseCommand_text_ne _ _ _ _ hparse
  have hbell : ¬ firstChar msh.Text = bellChar := by
    rw [hhead]; decide
  simp [State.processUpdate, hm, hp, hne, State.processText, hbell, hparse, hbn, hfold]

/-- Update fixture: the spec's mismatched-bot-name command message. -/
def updMismatch : Update := { Message := some { Text := "/start@bot2 hello" } }

/-- Counterexample to C4 as stated: on a bot named `bot1` with the
generic command handler registered, the text `"/start@bot2 hello"`
parses as a command for bot `bot2`; the classifier returns false with no
invocation instead of falling through to the registered
unrecognized-command (or any-text) classification. -/
theorem botname_mismatch_counterexample :
    parseCommand "/start@bot2 hello" = some ("/start", "bot2", "hello") ∧
      eqFold stateF.Me.Username "bot2" = false ∧
      stateF.handlers.contains OnCommand = true ∧
      stateF.processUpdate updMismatch = (false, []) := by decide

/-- Witness for C4 (amended): same concrete run, through the theorem. -/
theorem botname_mismatch_unhandled_witness :
    parseCommand "/start@bot2 hello" = some ("/start", "bot2", "hello") ∧
      stateF.processUpdate updMismatch = (false, []) :=
  ⟨by decide,
    botname_mismatch_unhandled stateF updMismatch { Text := "/start@bot2 hello" }
      "/start" "bot2" "hello" rfl rfl (by decide) (by decide) (by decide)⟩

/-- Closed form of the joined-users fan-out: the boolean is the OR of the
per-user dispatch results and the invocations are one per joined user on
its per-user message view (none when no handler is registered). -/
theorem fanOutJoined_spec (s : State) (msh : Message) (users : List User) :
    s.fanOutJoined msh users =
      (users.any (fun _ => s.handlers.contains OnUserJoined),
       if s.handlers.contains OnUserJoined then
         users.map (fun u => Invocation.onMessage OnUserJoined { msh with UserJoined := some u })
       else []) := by
  induction users with
  | nil => simp [State.fanOutJoined]
  | cons u rest ih =>
    unfold State.fanOutJoined
    rw [ih]
    cases hc : s.handlers.contains OnUserJoined with
    | true =>
      have hmem : OnUserJoined ∈ s.handlers := by simpa using hc
      simp [State.handle, hc, hmem]
    | false =>
      have hmem : OnUserJoined ∉ s.handlers := by simpa using hc
      simp [State.handle, hc, hmem]

/-- C8: a message carrying a non-empty joined-users list (not classified
as the bot itself being added) fans out to exactly one user-joined
invocation per joined user, each on a shallow per-user copy of the
message with `UserJoined` set to that user, and the classifier result is
the OR of the per-user dispatch results (all true here, a handler being
registered). -/
theorem usersJoined_fanout (s : State) (upd : Update) (msh : Message)
    (users : List User)
    (hm : upd.Message = some msh) (hp : msh.PinnedMessage = none)
    (ht : msh.Text = "") (hmedia : mediaKey msh = none)
    (hinv : msh.Invoice = none) (hpay : msh.Payment = none)
    (hgc : msh.GroupCreated = false) (hsgc : msh.SuperGroupCreated = false)
    (huj : msh.UserJoined = none) (husers : msh.UsersJoined = some users)
    (hnotme : isUserInList s.Me users = false)
    (hreg : s.handlers.contains OnUserJoined = true) (hne : users ≠ []) :
    s.processUpdate upd =
      (true, users.map (fun u =>
        Invocation.onMessage OnUserJoined { msh with UserJoined := some u })) := by
  obtain ⟨u, rest, rfl⟩ := List.exists_cons_of_ne_nil hne
  have hmem : OnUserJoined ∈ s.handlers := by simpa using hreg
  simp [State.processUpdate, hm, hp, ht, State.processNonText, State.handleMedia,
    hmedia, hinv, hpay, huj, husers, hnotme, hgc, hsgc, fanOutJoined_spec, hreg, hmem]

/-- Joined-user fixtures, none of them the bot itself. -/
def joinA : User := { ID := 11, Username := "alice" }

/-- Second joined-user fixture. -/
def joinB : User := { ID := 12, Username := "bob" }

/-- Third joined-user fixture. -/
def joinC : User := { ID := 13, Username := "carol" }

/-- Message fixture: three users joined simultaneously. -/
def mshJoined : Message := { UsersJoined := some [joinA, joinB, joinC] }

/-- Update fixture around `mshJoined`. -/
def updJoined : Update := { Message := some mshJoined }

/-- Witness for C8: three joiners, a registered per-user handler, three
per-user invocations, overall result true. -/
theorem usersJoined_fanout_witness :
    stateF.handlers.contains OnUserJoined = true ∧
      isUserInList stateF.Me [joinA, joinB, joinC] = false ∧
      stateF.processUpdate updJoined =
        (true, [joinA, joinB, joinC].map (fun u =>
          Invocation.onMessage OnUserJoined { mshJoined with UserJoined := some u })) :=
  ⟨by decide, by decide,
    usersJoined_fanout stateF updJoined mshJoined [joinA, joinB, joinC]
      rfl rfl rfl (by decide) rfl rfl rfl rfl rfl rfl (by decide) (by decide) (by decide)⟩

/-- The inline-message rewrite leaves the callback's data untouched. -/
theorem inlineRewrite_Data (cb : Callback) : (inlineRewrite cb).Data = cb.Data := by
  unfold inlineRewrite
  split <;> rfl

/-- C7: a callback whose data starts with the escape prefix and parses
into an identifier and trailing payload routes to the handler registered
under that identifier with the data replaced by just the payload and
returns true; with no such handler it falls back to the generic
any-callback slot (which sees the data untouched). -/
theorem callback_structured_routing (s : State) (upd : Update) (cb : Callback)
    (unique payload : String)
    (hm : upd.Message = none) (hem : upd.EditedMessage = none)
    (hcp : upd.ChannelPost = none) (hecp : upd.EditedChannelPost = none)
    (hcb : upd.Callback = some cb)
    (hdata : cb.Data ≠ "") (hesc : firstChar cb.Data = escapeChar)
    (hparse : parseCallbackData cb.Data = some (unique, payload)) :
    (s.handlers.contains (escapeStr ++ unique) = true →
      s.processUpdate upd =
        (true, [Invocation.onCallback (escapeStr ++ unique)
          { inlineRewrite cb with Data := payload }])) ∧
    (s.handlers.contains (escapeStr ++ unique) = false →
      s.processUpdate upd =
        s.genericSlot OnCallback (Invocation.onCallback OnCallback (inlineRewrite cb))) := by
  have hd2 : (inlineRewrite cb).Data = cb.Data := inlineRewrite_Data cb
  constructor <;> intro hc
  · have hmem : escapeStr ++ unique ∈ s.handlers := by simpa using hc
    simp [State.processUpdate, hm, State.processRest, State.callbackBranch,
      hem, hcp, hecp, hcb, hd2, hdata, hesc, hparse, hc, hmem]
  · have hmem : escapeStr ++ unique ∉ s.handlers := by simpa using hc
    simp [State.processUpdate, hm, State.processRest, State.callbackBranch,
      hem, hcp, hecp, hcb, hd2, hdata, hesc, hparse, hc, hmem]

/-- Callback fixture: escape prefix, identifier `yesBtn`, payload `ok`. -/
def cbW : Callback := { Data := "\x0CyesBtn|ok" }

/-- Update fixture around `cbW`. -/
def updCb : Update := { Callback := some cbW }

/-- Witness for C7: the structured callback routes to the `yesBtn`
handler with data rewritten to `"ok"`. -/
theorem callback_structured_routing_witness :
    parseCallbackData cbW.Data = some ("yesBtn", "ok") ∧
      stateF.handlers.contains (escapeStr ++ "yesBtn") = true ∧
      stateF.processUpdate updCb =
        (true, [Invocation.onCallback (escapeStr ++ "yesBtn")
          { inlineRewrite cbW with Data := "ok" }]) :=
  ⟨by decide, by decide,
    (callback_structured_routing stateF updCb cbW "yesBtn" "ok"
      rfl rfl rfl rfl rfl (by decide) (by decide) (by decide)).1 (by decide)⟩

/-! Toward C5: the dispatcher's boolean result versus its invocations. -/

/-- `State.handle` reports true exactly when it recorded an invocation. -/
theorem handle_true_iff (s : State) (k : String) (m : Message) :
    (s.handle k m).1 = true ↔ (s.handle k m).2 ≠ [] := by
  unfold State.handle
  split <;> simp

/-- `State.genericSlot` reports true exactly when it recorded an invocation. -/
theorem genericSlot_true_iff (s : State) (k : String) (inv : Invocation) :
    (s.genericSlot k inv).1 = true ↔ (s.genericSlot k inv).2 ≠ [] := by
  unfold State.genericSlot
  split <;> simp

/-- An if-then-else of two result pairs preserves the
result-iff-invocations property. -/
theorem pair_ite_iff (c : Prop) [Decidable c] (a b : Bool × List Invocation)
    (ha : a.1 = true ↔ a.2 ≠ []) (hb : b.1 = true ↔ b.2 ≠ []) :
    (if c then a else b).1 = true ↔ (if c then a else b).2 ≠ [] := by
  by_cases hc : c <;> simp [hc, ha, hb]

/-- The fan-out loop reports true exactly when it recorded an invocation. -/
theorem fanOutJoined_true_iff (s : State) (msh : Message) (users : List User) :
    (s.fanOutJoined msh users).1 = true ↔ (s.fanOutJoined msh users).2 ≠ [] := by
  rw [fanOutJoined_spec]
  cases hc : s.handlers.contains OnUserJoined with
  | true => cases users <;> simp [hc]
  | false => simp [hc]

/-- The callback branch reports true exactly when it recorded an
invocation. -/
theorem callbackBranch_true_iff (s : State) (cb0 : Callback) :
    (s.callbackBranch cb0).1 = true ↔ (s.callbackBranch cb0).2 ≠ [] := by
  unfold State.callbackBranch
  by_cases hcond : (inlineRewrite cb0).Data ≠ "" ∧
      firstChar (inlineRewrite cb0).Data = escapeChar
  · cases hp : parseCallbackData (inlineRewrite cb0).Data with
    | none => simp [hcond, hp, genericSlot_true_iff]
    | some pr =>
      obtain ⟨u, pl⟩ := pr
      cases hc : s.handlers.contains (escapeStr ++ u) with
      | true =>
        have hmem : escapeStr ++ u ∈ s.handlers := by simpa using hc
        simp [hcond, hp, hc, hmem]
      | false =>
        have hmem : escapeStr ++ u ∉ s.handlers := by simpa using hc
        simp [hcond, hp, hc, hmem, genericSlot_true_iff]
  · simp [hcond, genericSlot_true_iff]

/-- The non-message chain reports true exactly when it recorded an
invocation. -/
theorem processRest_true_iff (s : State) (upd : Update) :
    (s.processRest upd).1 = true ↔ (s.processRest upd).2 ≠ [] := by
  unfold State.processRest
  cases hem : upd.EditedMessage with
  | some em => exact handle_true_iff s OnEdited em
  | none =>
  cases hcp : upd.ChannelPost with
  | some msg =>
    exact pair_ite_iff _ _ _ (handle_true_iff s OnPinned msg)
      (handle_true_iff s OnChannelPost msg)
  | none =>
  cases hecp : upd.EditedChannelPost with
  | some ecp => exact handle_true_iff s OnEditedChannelPost ecp
  | none =>
  cases hcb : upd.Callback with
  | some cb0 => exact callbackBranch_true_iff s cb0
  | none =>
  cases hq : upd.Query with
  | some q => exact genericSlot_true_iff s OnQuery (Invocation.onOther OnQuery)
  | none =>
  cases hcir : upd.ChosenInlineResult with
  | some c =>
    exact genericSlot_true_iff s OnChosenInlineResult (Invocation.onOther OnChosenInlineResult)
  | none =>
  cases hsq : upd.ShippingQuery with
  | some c => exact genericSlot_true_iff s OnShipping (Invocation.onOther OnShipping)
  | none =>
  cases hpcq : upd.PreCheckoutQuery with
  | some c => exact genericSlot_true_iff s OnCheckout (Invocation.onOther OnCheckout)
  | none =>
  cases hpo : upd.Poll with
  | some c => exact genericSlot_true_iff s OnPoll (Invocation.onOther OnPoll)
  | none =>
  cases hpa : upd.PollAnswer with
  | some c => exact genericSlot_true_iff s OnPollAnswer (Invocation.onOther OnPollAnswer)
  | none =>
  cases hmc : upd.MyChatMember with
  | some c => exact genericSlot_true_iff s OnMyChatMember (Invocation.onOther OnMyChatMember)
  | none =>
  cases hcm : upd.ChatMember with
  | some c => exact genericSlot_true_iff s OnChatMember (Invocation.onOther OnChatMember)
  | none => simp

/-- If the message block fell through entirely, no media field was
present. -/
theorem processNonText_none_mediaKey (s : State) (msh : Message)
    (h : s.processNonText msh = none) : mediaKey msh = none := by
  by_contra hk
  obtain ⟨key, hkey⟩ : ∃ key, mediaKey msh = some key :=
    Option.ne_none_iff_exists'.mp hk
  unfold State.processNonText at h
  rw [show s.handleMedia msh = (true, (s.handle key msh).2) from by
    simp [State.handleMedia, hkey]] at h
  simp at h

/-- On any matched message branch, the boolean result is true exactly
when an invocation was recorded or the branch was the media
short-circuit. -/
theorem processNonText_some_iff (s : State) (msh : Message)
    (r : Bool × List Invocation) (h : s.processNonText msh = some r) :
    (r.1 = true ↔ (r.2 ≠ [] ∨ (mediaKey msh).isSome = true)) := by
  unfold State.processNonText at h
  cases hk : mediaKey msh with
  | some key =>
    rw [show s.handleMedia msh = (true, (s.handle key msh).2) from by
      simp [State.handleMedia, hk]] at h
    simp only [show ((true, (s.handle key msh).2).1 = true) = True from by simp,
      if_true] at h
    obtain rfl := Option.some.inj h
    simp [hk]
  | none =>
    rw [show s.handleMedia msh = (false, []) from by
      simp [State.handleMedia, hk]] at h
    simp only [show (((false, ([] : List Invocation)).1 = true) = False) from by simp,
      if_false] at h
    by_cases h1 : msh.Invoice.isSome = true
    case pos =>
      rw [if_pos h1] at h
      obtain rfl := Option.some.inj h
      simp [handle_true_iff]
    rw [if_neg h1] at h
    by_cases h2 : msh.Payment.isSome = true
    case pos =>
      rw [if_pos h2] at h
      obtain rfl := Option.some.inj h
      simp [handle_true_iff]
    rw [if_neg h2] at h
    by_cases h3 : (msh.GroupCreated || msh.SuperGroupCreated ||
        ((match msh.UserJoined with | some u => u.ID == s.Me.ID | none => false)
         || (match msh.UsersJoined with | some l => isUserInList s.Me l | none => false))) = true
    case pos =>
      rw [if_pos h3] at h
      obtain rfl := Option.some.inj h
      simp [handle_true_iff]
    rw [if_neg h3] at h
    cases husj : msh.UsersJoined with
    | some users =>
      simp only [husj] at h
      obtain rfl := Option.some.inj h
      simp [fanOutJoined_true_iff]
    | none =>
    simp only [husj] at h
    by_cases h5 : msh.UserJoined.isSome = true
    case pos =>
      rw [if_pos h5] at h
      obtain rfl := Option.some.inj h
      simp [handle_true_iff]
    rw [if_neg h5] at h
    by_cases h6 : msh.UserLeft.isSome = true
    case pos =>
      rw [if_pos h6] at h
      obtain rfl := Option.some.inj h
      simp [handle_true_iff]
    rw [if_neg h6] at h
    by_cases h7 : msh.NewGroupTitle ≠ ""
    case pos =>
      rw [if_pos h7] at h
      obtain rfl := Option.some.inj h
      simp [handle_true_iff]
    rw [if_neg h7] at h
    by_cases h8 : msh.NewGroupPhoto.isSome = true
    case pos =>
      rw [if_pos h8] at h
      obtain rfl := Option.some.inj h
      simp [handle_true_iff]
    rw [if_neg h8] at h
    by_cases h9 : msh.GroupPhotoDeleted = true
    case pos =>
      rw [if_pos h9] at h
      obtain rfl := Option.some.inj h
      simp [handle_true_iff]
    rw [if_neg h9] at h
    by_cases h10 : msh.MigrateTo ≠ 0
    case pos =>
      rw [if_pos h10] at h
      obtain rfl := Option.some.inj h
      simp [genericSlot_true_iff]
    rw [if_neg h10] at h
    by_cases h11 : msh.VoiceChatStarted.isSome = true
    case pos =>
      rw [if_pos h11] at h
      obtain rfl := Option.some.inj h
      simp [genericSlot_true_iff]
    rw [if_neg h11] at h
    by_cases h12 : msh.VoiceChatEnded.isSome = true
    case pos =>
      rw [if_pos h12] at h
      obtain rfl := Option.some.inj h
      simp [genericSlot_true_iff]
    rw [if_neg h12] at h
    by_cases h13 : msh.VoiceChatParticipantsInvited.isSome = true
    case pos =>
      rw [if_pos h13] at h
      obtain rfl := Option.some.inj h
      simp [genericSlot_true_iff]
    rw [if_neg h13] at h
    by_cases h14 : msh.ProximityAlert.isSome = true
    case pos =>
      rw [if_pos h14] at h
      obtain rfl := Option.some.inj h
      simp [genericSlot_true_iff]
    rw [if_neg h14] at h
    by_cases h15 : msh.AutoDeleteTimer.isSome = true
    case pos =>
      rw [if_pos h15] at h
      obtain rfl := Option.some.inj h
      simp [genericSlot_true_iff]
    rw [if_neg h15] at h
    by_cases h16 : msh.VoiceChatSchedule.isSome = true
    case pos =>
      rw [if_pos h16] at h
      obtain rfl := Option.some.inj h
      simp [genericSlot_true_iff]
    rw [if_neg h16] at h
    exact Option.noConfusion h

/-- The closing text ladder reports true exactly when it recorded an
invocation. -/
theorem afterCommand_true_iff (s : State) (msh : Message) :
    (s.afterCommand msh).1 = true ↔ (s.afterCommand msh).2 ≠ [] := by
  unfold State.afterCommand
  exact pair_ite_iff _ _ _ (handle_true_iff s msh.Text msh)
    (pair_ite_iff _ _ _ (handle_true_iff s OnCommand msh) (handle_true_iff s OnText msh))

/-- The text block reports true exactly when it recorded an invocation. -/
theorem processText_true_iff (s : State) (msh : Message) :
    (s.processText msh).1 = true ↔ (s.processText msh).2 ≠ [] := by
  unfold State.processText
  by_cases hbell : firstChar msh.Text = bellChar
  case pos => simp [hbell]
  rw [if_neg hbell]
  cases hpc : parseCommand msh.Text with
  | none => exact afterCommand_true_iff s msh
  | some cbp =>
    obtain ⟨c, b, p⟩ := cbp
    dsimp only
    by_cases hbm : b ≠ "" ∧ eqFold s.Me.Username b = false
    case pos => simp [hbm]
    rw [if_neg hbm]
    exact pair_ite_iff _ _ _ (handle_true_iff s c { msh with Payload := p })
      (afterCommand_true_iff s { msh with Payload := p })

/-- The media short-circuit: the classifier reaches the media branch (a
message update with no pinned sub-payload, empty text and some media
field present); on this path the boolean result is true irrespective of
handler registration, because `handleMedia` discards the lookup result. -/
def mediaShortCircuit (upd : Update) : Prop :=
  ∃ msh, upd.Message = some msh ∧ msh.PinnedMessage = none ∧ msh.Text = "" ∧
    (mediaKey msh).isSome = true

/-- For a message update the media short-circuit is a condition on its
message. -/
theorem mediaShortCircuit_iff (upd : Update) (msh : Message)
    (hm : upd.Message = some msh) :
    (mediaShortCircuit upd ↔
      (msh.PinnedMessage = none ∧ msh.Text = "" ∧ (mediaKey msh).isSome = true)) := by
  unfold mediaShortCircuit
  constructor
  · rintro ⟨msh0, hmm0, hrest⟩
    rw [hm] at hmm0
    obtain rfl := Option.some.inj hmm0
    exact hrest
  · intro h
    exact ⟨msh, hm, h⟩

/-- A messageless update has no media short-circuit. -/
theorem mediaShortCircuit_none (upd : Update) (hm : upd.Message = none) :
    ¬ mediaShortCircuit upd := by
  rintro ⟨msh0, hmm0, -⟩
  rw [hm] at hmm0
  exact Option.noConfusion hmm0

/-- C5 (amended): the dispatcher's boolean result is true if and only if
some registered handler was found and invoked — except on the media
short-circuit, where the result is true even when no handler is
registered for the media key, because `handleMedia` discards the per-key
lookup result. -/
theorem processUpdate_true_iff (s : State) (upd : Update) :
    (s.processUpdate upd).1 = true ↔
      ((s.processUpdate upd).2 ≠ [] ∨ mediaShortCircuit upd) := by
  unfold State.processUpdate
  cases hm : upd.Message with
  | none =>
    have hms := mediaShortCircuit_none upd hm
    simp only [hms, or_false]
    exact processRest_true_iff s upd
  | some msh =>
    dsimp only
    have hmsc := mediaShortCircuit_iff upd msh hm
    by_cases hpin : msh.PinnedMessage.isSome = true
    case pos =>
      have hms : ¬ mediaShortCircuit upd := by
        rw [hmsc]
        rintro ⟨hpn, -, -⟩
        rw [hpn] at hpin
        exact Bool.false_ne_true hpin
      rw [if_pos hpin]
      simp only [hms, or_false]
      exact handle_true_iff s OnPinned msh
    rw [if_neg hpin]
    have hpn : msh.PinnedMessage = none := by
      cases hpm : msh.PinnedMessage with
      | none => rfl
      | some pv => rw [hpm] at hpin; exact absurd rfl hpin
    by_cases ht : msh.Text ≠ ""
    case pos =>
      have hms : ¬ mediaShortCircuit upd := by
        rw [hmsc]
        rintro ⟨-, htx, -⟩
        exact ht htx
      rw [if_pos ht]
      simp only [hms, or_false]
      exact processText_true_iff s msh
    rw [if_neg ht]
    have htx : msh.Text = "" := not_ne_iff.mp ht
    cases hnt : s.processNonText msh with
    | some r =>
      have hiff := processNonText_some_iff s msh r hnt
      have hms : mediaShortCircuit upd ↔ (mediaKey msh).isSome = true := by
        rw [hmsc]
        simp [hpn, htx]
      rw [hiff, hms]
    | none =>
      have hmk := processNonText_none_mediaKey s msh hnt
      have hms : ¬ mediaShortCircuit upd := by
        rw [hmsc, hmk]
        rintro ⟨-, -, hfalse⟩
        simp at hfalse
      simp only [hms, or_false]
      exact processRest_true_iff s upd

/-- Dispatcher fixture with an empty handler table. -/
def stateEmpty : State := { Me := botUser, typ := Default }

/-- Update fixture: a bare photo message. -/
def updPhoto : Update := { Message := some { Photo := some () } }

/-- Counterexample to C5 as stated: `stateEmpty` has no handler at all,
yet the photo update is reported handled (true) with no invocation made,
because `handleMedia` returns true regardless of the lookup result. -/
theorem media_true_without_handler :
    stateEmpty.handlers = [] ∧ stateEmpty.processUpdate updPhoto = (true, []) := by
  decide
